import Mathlib

/-!
Shallow embedding of the Rishikeshk9/cactus GPU-inference broker
(rust crate under src/rust/src/) for checking the specification claims.

Modelling conventions:
- Rust f64 GPU-memory quantities are modelled as rationals (no NaN or
  infinities; partial_cmp followed by unwrap_or(Equal) on rationals is
  the total comparison).
- chrono DateTime timestamps are modelled as integer milliseconds.
  chrono Duration comparison against Duration::seconds(30) is the exact
  comparison of millisecond values; Duration::num_seconds truncates the
  duration toward zero, which is Int.div by 1000.
- Uuid values are modelled as naturals.
- The HashMap of registry clients is modelled as a list of records keyed
  by client_id; HashMap cannot hold duplicate keys, so theorems that need
  key uniqueness take a Nodup hypothesis on the key list.
- Note on the HeartbeatUpdate record: the declaration in
  protocol/types.rs lists client_id, loaded_models, status,
  last_heartbeat, ip_address, while server/registry.rs update_client also
  reads update.capabilities and update.gpu_info, and
  client/manager.rs send_heartbeat also writes both fields (the source
  files disagree; the tree does not compile as a whole). We embed the
  field set that server/registry.rs, the consumer all registry claims
  target, actually reads.
- Likewise ClientCapabilities is embedded as declared in
  protocol/types.rs (models, gpu_available); the model_cids map written
  by client/manager.rs is absent from the declaration and unused by the
  registry, so it is omitted.
-/

namespace Cactus

/-- GPUInfo from protocol/types.rs lines 14-23. -/
structure GPUInfo where
  device_name : String
  total_memory : ℚ
  allocated_memory : ℚ
  reserved_memory : ℚ
  free_memory : ℚ
  cuda_version : String
  compute_capability : String
deriving DecidableEq, Repr

/-- ClientCapabilities from protocol/types.rs lines 25-29. -/
structure ClientCapabilities where
  models : List String
  gpu_available : Bool
deriving DecidableEq, Repr

/-- GPUClient from protocol/types.rs lines 31-41. -/
structure GPUClient where
  client_id : Nat
  ip_address : String
  port : Nat
  gpu_info : GPUInfo
  loaded_models : List String
  last_heartbeat : Int
  status : String
  capabilities : ClientCapabilities
deriving DecidableEq, Repr

/-- HeartbeatUpdate with the field set read by registry.rs update_client
(lines 35-50) and written by manager.rs send_heartbeat (lines 302-314). -/
structure HeartbeatUpdate where
  client_id : Nat
  loaded_models : List String
  status : String
  last_heartbeat : Int
  ip_address : Option String
  capabilities : ClientCapabilities
  gpu_info : GPUInfo
deriving DecidableEq, Repr

/-- RegistryError from registry.rs lines 10-14. -/
inductive RegistryError where
  | ClientNotFound
deriving DecidableEq, Repr

/-- The thiserror Display string of RegistryError (registry.rs line 12). -/
def RegistryError.display : RegistryError → String
  | .ClientNotFound => "client not found"

/-- The registry map of clients; HashMap of Uuid to GPUClient modelled as
a list of records keyed by client_id. -/
abbrev Registry := List GPUClient

instance {e a : Type} [DecidableEq e] [DecidableEq a] :
    DecidableEq (Except e a) := fun x y =>
  match x, y with
  | .ok v, .ok w =>
    if h : v = w then .isTrue (by rw [h]) else .isFalse (by simp [h])
  | .error v, .error w =>
    if h : v = w then .isTrue (by rw [h]) else .isFalse (by simp [h])
  | .ok _, .error _ => .isFalse (by simp)
  | .error _, .ok _ => .isFalse (by simp)

/-- heartbeat_timeout set in ClientRegistry::new (registry.rs line 25):
Duration::from_secs(3), read as whole seconds at the call sites. -/
def heartbeatTimeoutSecs : Int := 3

/-- The liveness window used inside find_best_client (registry.rs line 58):
chrono Duration::seconds(30), in milliseconds. -/
def livenessWindowMillis : Int := 30000

/-- register_client (registry.rs lines 29-33): HashMap::insert, replacing
the record stored under the same key or adding a new one. -/
def register_client (st : Registry) (c : GPUClient) : Registry :=
  if st.any (fun x => x.client_id == c.client_id) then
    st.map (fun x => if x.client_id == c.client_id then c else x)
  else
    st ++ [c]

/-- The field assignments performed by update_client on the stored record
(registry.rs lines 38-45). -/
def applyHeartbeat (c : GPUClient) (u : HeartbeatUpdate) : GPUClient :=
  { c with
    loaded_models := u.loaded_models
    status := u.status
    last_heartbeat := u.last_heartbeat
    capabilities := u.capabilities
    gpu_info := u.gpu_info
    ip_address := match u.ip_address with
      | some ip => ip
      | none => c.ip_address }

/-- update_client (registry.rs lines 35-50): mutate the record stored
under update.client_id, or return ClientNotFound leaving the map as it
was. -/
def update_client (st : Registry) (u : HeartbeatUpdate) :
    Except RegistryError Registry :=
  if st.any (fun x => x.client_id == u.client_id) then
    .ok (st.map (fun x =>
      if x.client_id == u.client_id then applyHeartbeat x u else x))
  else
    .error .ClientNotFound

/-- The in-place eviction predicate of find_best_client (registry.rs
line 58): now minus last_heartbeat strictly below 30 seconds. -/
def isActiveForSelect (now : Int) (c : GPUClient) : Bool :=
  now - c.last_heartbeat < livenessWindowMillis

/-- The per-model memory check of find_best_client (registry.rs
lines 88-91): stable_diffusion needs total_memory at least 8.0, every
other model name passes unconditionally. -/
def hasEnoughMemory (model_name : String) (c : GPUClient) : Bool :=
  if model_name == "stable_diffusion" then
    decide ((8 : ℚ) ≤ c.gpu_info.total_memory)
  else
    true

/-- The candidate filter of find_best_client (registry.rs lines 68-111):
status is online, total_memory is not zero, and the model is already
loaded or the memory check passes. -/
def eligibleClient (model_name : String) (c : GPUClient) : Bool :=
  c.status == "online" &&
  !(c.gpu_info.total_memory == 0) &&
  (c.loaded_models.contains model_name || hasEnoughMemory model_name c)

/-- The sort order of find_best_client (registry.rs lines 116-128):
greater total_memory first, ties by greater free_memory. Rank a b holds
when a may precede b in the sorted vector. -/
def Rank (a b : GPUClient) : Prop :=
  b.gpu_info.total_memory < a.gpu_info.total_memory ∨
    (a.gpu_info.total_memory = b.gpu_info.total_memory ∧
      b.gpu_info.free_memory ≤ a.gpu_info.free_memory)

instance : DecidableRel Rank := fun a b =>
  inferInstanceAs (Decidable (_ ∨ _))

instance : IsTotal GPUClient Rank := by
  constructor
  intro a b
  rcases lt_trichotomy a.gpu_info.total_memory b.gpu_info.total_memory with h | h | h
  · exact Or.inr (Or.inl h)
  · rcases le_total b.gpu_info.free_memory a.gpu_info.free_memory with hf | hf
    · exact Or.inl (Or.inr ⟨h, hf⟩)
    · exact Or.inr (Or.inr ⟨h.symm, hf⟩)
  · exact Or.inl (Or.inl h)

instance : IsTrans GPUClient Rank := by
  constructor
  intro a b c hab hbc
  rcases hab with hab | ⟨hab1, hab2⟩
  · rcases hbc with hbc | ⟨hbc1, hbc2⟩
    · exact Or.inl (hbc.trans hab)
    · exact Or.inl (hbc1 ▸ hab)
  · rcases hbc with hbc | ⟨hbc1, hbc2⟩
    · exact Or.inl (hab1 ▸ hbc)
    · exact Or.inr ⟨hab1.trans hbc1, hbc2.trans hab2⟩

/-- find_best_client (registry.rs lines 52-152): evict stale records,
filter eligible candidates, sort them by Rank, take the first, and if the
target model is not yet in its loaded_models, append it and write the
updated record back into the map. Returns the chosen record (a copy) and
the resulting map. Rust sort_by is a stable sort; insertionSort is also
stable, so ties are broken the same way (by map iteration order, which
the HashMap leaves arbitrary; the claims do not depend on tie order). -/
def find_best_client (st : Registry) (model_name : String) (now : Int) :
    Option GPUClient × Registry :=
  let retained := st.filter (isActiveForSelect now)
  let sorted := List.insertionSort Rank (retained.filter (eligibleClient model_name))
  match sorted.head? with
  | none => (none, retained)
  | some c =>
    if c.loaded_models.contains model_name then
      (some c, retained)
    else
      let c' := { c with loaded_models := c.loaded_models ++ [model_name] }
      (some c', retained.map (fun x => if x.client_id == c.client_id then c' else x))

/-- Whole seconds of a millisecond duration: chrono Duration num_seconds
truncates toward zero, which is Int.tdiv. -/
def wholeSeconds (d : Int) : Int := Int.tdiv d 1000

/-- The liveness predicate of get_active_clients and
cleanup_inactive_clients (registry.rs lines 161 and 172): whole seconds
of the age strictly below heartbeat_timeout = 3 seconds. -/
def isActiveForList (now : Int) (c : GPUClient) : Bool :=
  wholeSeconds (now - c.last_heartbeat) < heartbeatTimeoutSecs

/-- get_active_clients (registry.rs lines 154-165). -/
def get_active_clients (st : Registry) (now : Int) : Registry :=
  st.filter (isActiveForList now)

/-- cleanup_inactive_clients (registry.rs lines 167-174). -/
def cleanup_inactive_clients (st : Registry) (now : Int) : Registry :=
  st.filter (isActiveForList now)

/-! Coordinator HTTP surface, server/mod.rs. The router (lines 52-58)
wires POST /heartbeat/:client_id to the handler named update_client
(lines 84-98), which takes no Path extractor: the path segment is not
read at all. The other handler client_heartbeat (lines 107-127), which
does extract and discard the path id, is not wired to any route. -/

/-- ServerResponse from protocol/types.rs lines 167-171. -/
structure ServerResponse where
  status : String
  message : String
deriving DecidableEq, Repr

/-- The handler wired to POST /heartbeat/:client_id (mod.rs lines 54 and
84-98). It receives the path segment of the URL but does not read it;
the registry operation takes only the JSON body. Both arms return an
axum Json value, hence HTTP status 200. -/
def heartbeatEndpoint (st : Registry) (pathId : Nat) (u : HeartbeatUpdate) :
    (Nat × ServerResponse) × Registry :=
  match update_client st u with
  | .ok st' =>
      ((200, ⟨"success", "Client updated successfully"⟩), st')
  | .error e =>
      ((200, ⟨"error", "Failed to update client: " ++ e.display⟩), st)

/-- ModelType from protocol/types.rs lines 139-145. -/
inductive ModelType where
  | CovidXRay
  | StableDiffusion
deriving DecidableEq, Repr

/-- QualityPreset from protocol/types.rs lines 114-119. -/
inductive QualityPreset where
  | Fast
  | Balanced
  | Quality
deriving DecidableEq, Repr

/-- PredictionRequest from protocol/types.rs lines 147-156. -/
structure PredictionRequest where
  model_type : ModelType
  model_cid : String
  image_url : Option String
  prompt : Option String
  quality_preset : Option QualityPreset
deriving DecidableEq, Repr

/-- PredictionResponse from protocol/types.rs lines 173-182; the f64 and
f32 numeric fields are rationals here. -/
structure PredictionResponse where
  success : Bool
  prompt : Option String
  generation_time_ms : Option ℚ
  parameters : Option (List (String × ℚ))
  timestamp : Option String
  image_base64 : Option String
  error : Option String
deriving DecidableEq, Repr

/-- ClientError from protocol/types.rs lines 43-49. -/
inductive ClientError where
  | RequestFailed (msg : String)
  | InvalidResponse (msg : String)
  | ServerError (msg : String)
  | InvalidRequest (msg : String)
deriving DecidableEq, Repr

/-- The Display implementation of ClientError (types.rs lines 51-60),
used for the 500 response message in the predict handler. -/
def ClientError.display : ClientError → String
  | .RequestFailed msg => "Request failed: " ++ msg
  | .InvalidResponse msg => "Invalid response: " ++ msg
  | .ServerError msg => "Server error: " ++ msg
  | .InvalidRequest msg => "Invalid request: " ++ msg

/-- The model-name string the predict handler passes to the registry
(mod.rs lines 173-176). -/
def modelName : ModelType → String
  | .CovidXRay => "covid_xray"
  | .StableDiffusion => "stable_diffusion"

/-- The payload validation at the top of the predict handler (mod.rs
lines 147-170); some message means a 400 Bad Request with that message. -/
def validateRequest (r : PredictionRequest) : Option String :=
  match r.model_type with
  | .CovidXRay =>
      if r.image_url.isNone then
        some "image_url is required for COVID X-Ray model"
      else
        none
  | .StableDiffusion =>
      if r.prompt.isNone || r.quality_preset.isNone then
        some "prompt and quality_preset are required for Stable Diffusion model"
      else if (r.prompt.getD "").isEmpty then
        some "Empty prompt"
      else
        none

/-- The outcome the predict handler returns to the submitting client:
the HTTP status and body shape of mod.rs lines 147-229. -/
inductive PredictOutcome where
  | badRequest (msg : String)
  | unavailable (msg : String)
  | serverError (msg : String)
  | success (resp : PredictionResponse)
deriving DecidableEq, Repr

/-- HTTP status code of each predict outcome. -/
def PredictOutcome.httpStatus : PredictOutcome → Nat
  | .badRequest _ => 400
  | .unavailable _ => 503
  | .serverError _ => 500
  | .success _ => 200

/-- The heartbeat-update the predict handler synthesizes on a failed
forward (mod.rs lines 214-221), built from the copy of the selected
client: status becomes error, last_heartbeat becomes the current time,
the other fields are the copied ones. The source struct literal omits
gpu_info (one of the field-set inconsistencies of the tree); it is
embedded as the copied gpu_info of the same client, consistent with
every other field of the literal. -/
def errorHeartbeat (c : GPUClient) (now : Int) : HeartbeatUpdate :=
  { client_id := c.client_id
    status := "error"
    loaded_models := c.loaded_models
    last_heartbeat := now
    ip_address := some c.ip_address
    capabilities := c.capabilities
    gpu_info := c.gpu_info }

/-- The predict handler (mod.rs lines 137-230). The forwarded POST to the
worker is external I/O; it is modelled by the parameter upstream giving
the outcome of send_prediction_request on the chosen client. On an
upstream error the handler writes the synthesized error heartbeat through
update_client (a failure of that write is only logged) and returns 500
with the Display string of the upstream error. -/
def predict (st : Registry) (now : Int) (req : PredictionRequest)
    (upstream : GPUClient → Except ClientError PredictionResponse) :
    PredictOutcome × Registry :=
  match validateRequest req with
  | some m => (.badRequest m, st)
  | none =>
    let mn := modelName req.model_type
    let res := find_best_client st mn now
    match res.1 with
    | none =>
        (.unavailable ("No available client found for model type " ++ mn), res.2)
    | some c =>
        match upstream c with
        | .ok r => (.success r, res.2)
        | .error e =>
            let st'' := match update_client res.2 (errorHeartbeat c now) with
              | .ok s => s
              | .error _ => res.2
            (.serverError e.display, st'')

/-! Worker agent, client/manager.rs. -/

/-- The bounded lock-acquisition timeout used by send_heartbeat
(manager.rs lines 269 and 288-290): tokio time::timeout with
Duration::from_millis(100). -/
def heartbeatLockTimeoutMillis : Nat := 100

/-- The bounded network timeout of the heartbeat POST (manager.rs
line 318): 3 seconds. -/
def heartbeatSendTimeoutSecs : Nat := 3

/-- The heartbeat payload construction of send_heartbeat (manager.rs
lines 233-314), as a function of the two bounded lock acquisitions:
mmLock is some of the loaded-model list when the model_manager lock was
obtained within the timeout and none on timeout; statusLock likewise for
the status mutex. On timeout the initialized defaults of lines 262-265
are used: empty loaded_models and status online. The gpu snapshot is
produced lock-free before either acquisition (lines 236-260). -/
def mkHeartbeatUpdate (clientId : Nat) (ipHostPort : String) (now : Int)
    (gpu : GPUInfo) (mmLock : Option (List String))
    (statusLock : Option String) : HeartbeatUpdate :=
  let loaded := match mmLock with
    | some lm => lm
    | none => []
  let current_status := match statusLock with
    | some s => s
    | none => "online"
  { client_id := clientId
    loaded_models := loaded
    status := current_status
    last_heartbeat := now
    ip_address := some ipHostPort
    capabilities := { models := loaded, gpu_available := decide (0 < gpu.total_memory) }
    gpu_info := gpu }

/-- How send_heartbeat classifies the coordinator reply (manager.rs
lines 324-361): any HTTP success status is Ok and the body is never
read; a non-success status yields an error built from the status and the
body text. -/
def hbSendOutcome (status : Nat) (bodyText : String) : Except String Unit :=
  if 200 ≤ status && status < 300 then
    .ok ()
  else
    .error ("Server rejected heartbeat with status " ++ toString status ++ ": " ++ bodyText)

/-- Observable lifecycle counters of the agent: how many times it has
called register and how many heartbeats it has emitted. -/
structure AgentState where
  registrations : Nat
  heartbeats : Nat
deriving DecidableEq, Repr

/-- GPUClientManager::start (manager.rs lines 67-71) performs exactly one
registration before spawning the heartbeat loop. -/
def agentStart (s : AgentState) : AgentState :=
  { s with registrations := s.registrations + 1 }

/-- One iteration of the heartbeat loop body (manager.rs lines 112-125):
send_heartbeat, then match on its outcome; the Ok arm logs at debug, the
Err arm logs at error, and neither arm performs any other call - in
particular no arm calls register. -/
def agentHeartbeatTick (s : AgentState) (respStatus : Nat)
    (respBody : String) : AgentState :=
  match hbSendOutcome respStatus respBody with
  | .ok _ => { s with heartbeats := s.heartbeats + 1 }
  | .error _ => { s with heartbeats := s.heartbeats + 1 }

/-! Derived notions used to state the claims. -/

/-- Record a ranks strictly better than record b under the selection
order: greater total memory, ties by greater free memory. -/
def StrictlyBetter (a b : GPUClient) : Prop :=
  b.gpu_info.total_memory < a.gpu_info.total_memory ∨
    (a.gpu_info.total_memory = b.gpu_info.total_memory ∧
      b.gpu_info.free_memory < a.gpu_info.free_memory)

/-- The record a registry state stores under a given id: the HashMap get,
modelled as the first list entry with that client_id. -/
def lookupClient (st : Registry) (id : Nat) : Option GPUClient :=
  st.find? (fun c => c.client_id == id)

/-- The invariant of spec section 3: loaded_models is contained in the
supported model list of the capabilities. -/
def InvSub (c : GPUClient) : Prop :=
  ∀ m ∈ c.loaded_models, m ∈ c.capabilities.models

instance (c : GPUClient) : Decidable (InvSub c) :=
  inferInstanceAs (Decidable (∀ m ∈ c.loaded_models, m ∈ c.capabilities.models))

/-! Concrete fixture records used by counterexamples and witnesses. -/

/-- GPU snapshot fixture with the given total and free memory. -/
def gpuMk (t f : ℚ) : GPUInfo :=
  { device_name := "NVIDIA GeForce RTX 4090", total_memory := t,
    allocated_memory := 0, reserved_memory := 0, free_memory := f,
    cuda_version := "12.0", compute_capability := "8.9" }

/-- Client record fixture. -/
def clientMk (id : Nat) (t f : ℚ) (loaded : List String) (hb : Int)
    (stat : String) (caps : List String) : GPUClient :=
  { client_id := id, ip_address := "127.0.0.1", port := 8002,
    gpu_info := gpuMk t f, loaded_models := loaded, last_heartbeat := hb,
    status := stat, capabilities := { models := caps, gpu_available := true } }

/-! Helper lemmas. -/

theorem rank_refl (a : GPUClient) : Rank a a :=
  Or.inr ⟨rfl, le_refl _⟩

theorem not_strictlyBetter_of_rank {c w c0 : GPUClient}
    (hgpu : w.gpu_info = c0.gpu_info) (h : Rank c0 c) :
    ¬ StrictlyBetter c w := by
  rcases h with h | ⟨h1, h2⟩
  · rintro (hb | ⟨hb1, hb2⟩)
    · rw [hgpu] at hb
      exact absurd hb (lt_asymm h)
    · rw [hgpu] at hb1
      exact absurd hb1 (ne_of_lt h)
  · rintro (hb | ⟨hb1, hb2⟩)
    · rw [hgpu, h1] at hb
      exact lt_irrefl _ hb
    · rw [hgpu] at hb2
      exact absurd h2 (not_le_of_lt hb2)

theorem lookupClient_eq_some_of_mem :
    ∀ {st : Registry}, (st.map GPUClient.client_id).Nodup →
      ∀ {c : GPUClient}, c ∈ st → lookupClient st c.client_id = some c := by
  intro st
  induction st with
  | nil => intro _ c hc; cases hc
  | cons a t ih =>
    intro hnd c hc
    rw [List.map_cons, List.nodup_cons] at hnd
    rcases List.mem_cons.1 hc with rfl | hct
    · unfold lookupClient
      rw [List.find?_cons_of_pos _ (by simp)]
    · have hne : a.client_id ≠ c.client_id := by
        intro he
        exact hnd.1 (he ▸ List.mem_map_of_mem GPUClient.client_id hct)
      unfold lookupClient
      rw [List.find?_cons_of_neg _ (by simp [hne])]
      exact ih hnd.2 hct

theorem lookup_mapIf :
    ∀ {st : Registry}, (st.map GPUClient.client_id).Nodup →
      ∀ {c : GPUClient}, c ∈ st →
        ∀ (g : GPUClient → GPUClient), (g c).client_id = c.client_id →
          lookupClient
            (st.map (fun x => if x.client_id == c.client_id then g x else x))
            c.client_id = some (g c) := by
  intro st
  induction st with
  | nil => intro _ c hc; cases hc
  | cons a t ih =>
    intro hnd c hc g hg
    rw [List.map_cons, List.nodup_cons] at hnd
    by_cases hid : a.client_id = c.client_id
    · have hac : a = c := by
        rcases List.mem_cons.1 hc with rfl | hct
        · rfl
        · exact absurd (hid ▸ List.mem_map_of_mem GPUClient.client_id hct) hnd.1
      subst hac
      unfold lookupClient
      rw [List.map_cons, if_pos (by simp), List.find?_cons_of_pos _ (by simp [hg])]
    · have hct : c ∈ t := by
        rcases List.mem_cons.1 hc with rfl | hct
        · exact absurd rfl hid
        · exact hct
      unfold lookupClient
      rw [List.map_cons, if_neg (by simp [hid]), List.find?_cons_of_neg _ (by simp [hid])]
      exact ih hnd.2 hct g hg

theorem mem_mapIf_of_ne {st : Registry} {x : GPUClient} (hx : x ∈ st)
    (target : Nat) (g : GPUClient → GPUClient) (hne : x.client_id ≠ target) :
    x ∈ st.map (fun y => if y.client_id == target then g y else y) := by
  refine List.mem_map.2 ⟨x, hx, ?_⟩
  simp [hne]

theorem keys_nodup_filter {st : Registry} (p : GPUClient → Bool)
    (hnd : (st.map GPUClient.client_id).Nodup) :
    ((st.filter p).map GPUClient.client_id).Nodup :=
  hnd.sublist (List.Sublist.map GPUClient.client_id (List.filter_sublist st))

theorem keys_mapIf (target : Nat) (g : GPUClient → GPUClient)
    (hg : ∀ x : GPUClient, x.client_id = target → (g x).client_id = target) :
    ∀ st : Registry,
      (st.map (fun y => if y.client_id == target then g y else y)).map
          GPUClient.client_id
        = st.map GPUClient.client_id := by
  intro st
  induction st with
  | nil => rfl
  | cons a t ih =>
    simp only [List.map_cons]
    by_cases hid : a.client_id = target
    · rw [if_pos (by simp [hid]), ih, hg a hid, hid]
    · rw [if_neg (by simp [hid]), ih]

/-- Characterization of a successful selection: the chosen record is an
eligible live record c0 of the input state that every eligible live
record is outranked by, the returned copy w differs from c0 at most by
the appended target model, and the resulting map is the evicted map,
with the record under that id replaced by w when the append happened. -/
theorem find_best_client_spec {st : Registry} {mn : String} {now : Int}
    {w : GPUClient} (h : (find_best_client st mn now).1 = some w) :
    ∃ c0 : GPUClient,
      c0 ∈ st ∧ isActiveForSelect now c0 = true ∧
      eligibleClient mn c0 = true ∧
      w.client_id = c0.client_id ∧ w.gpu_info = c0.gpu_info ∧
      w.status = c0.status ∧ w.capabilities = c0.capabilities ∧
      w.last_heartbeat = c0.last_heartbeat ∧ w.ip_address = c0.ip_address ∧
      mn ∈ w.loaded_models ∧
      (∀ c ∈ st, isActiveForSelect now c = true →
        eligibleClient mn c = true → Rank c0 c) ∧
      ((w = c0 ∧
          (find_best_client st mn now).2 = st.filter (isActiveForSelect now)) ∨
        (w.loaded_models = c0.loaded_models ++ [mn] ∧
          (find_best_client st mn now).2 =
            (st.filter (isActiveForSelect now)).map
              (fun x => if x.client_id == c0.client_id then w else x))) := by
  rcases hsort : List.insertionSort Rank
      ((st.filter (isActiveForSelect now)).filter (eligibleClient mn))
    with _ | ⟨c0, t⟩
  · have hnone : (find_best_client st mn now).1 = none := by
      simp only [find_best_client, hsort, List.head?]
    rw [hnone] at h
    cases h
  · have hc0av : c0 ∈ (st.filter (isActiveForSelect now)).filter
        (eligibleClient mn) :=
      (List.perm_insertionSort Rank _).subset
        (hsort.symm ▸ List.mem_cons_self c0 t)
    have h1 := List.mem_filter.1 hc0av
    have h2 := List.mem_filter.1 h1.1
    have hsorted := List.sorted_insertionSort Rank
        ((st.filter (isActiveForSelect now)).filter (eligibleClient mn))
    rw [hsort] at hsorted
    have hhead := (List.sorted_cons.1 hsorted).1
    have hrank : ∀ c ∈ st, isActiveForSelect now c = true →
        eligibleClient mn c = true → Rank c0 c := by
      intro c hcst hact helig
      have hcav : c ∈ (st.filter (isActiveForSelect now)).filter
          (eligibleClient mn) :=
        List.mem_filter.2 ⟨List.mem_filter.2 ⟨hcst, hact⟩, helig⟩
      have hmem : c ∈ c0 :: t := by
        rw [← hsort]
        exact (List.perm_insertionSort Rank _).symm.subset hcav
      rcases List.mem_cons.1 hmem with rfl | hct
      · exact rank_refl c
      · exact hhead c hct
    have hfb : find_best_client st mn now =
        (if c0.loaded_models.contains mn then
          (some c0, st.filter (isActiveForSelect now))
        else
          (some { c0 with loaded_models := c0.loaded_models ++ [mn] },
            (st.filter (isActiveForSelect now)).map
              (fun x => if x.client_id == c0.client_id then
                { c0 with loaded_models := c0.loaded_models ++ [mn] }
              else x))) := by
      simp only [find_best_client, hsort, List.head?]
    by_cases hcont : c0.loaded_models.contains mn = true
    · rw [if_pos hcont] at hfb
      have hw : w = c0 := by
        rw [hfb] at h
        exact (Option.some_inj.1 h).symm
      refine ⟨c0, h2.1, h2.2, h1.2, by rw [hw], by rw [hw], by rw [hw],
        by rw [hw], by rw [hw], by rw [hw],
        by rw [hw]; exact List.elem_iff.1 hcont, hrank,
        Or.inl ⟨hw, by rw [hfb]⟩⟩
    · rw [if_neg hcont] at hfb
      have hw : w = { c0 with loaded_models := c0.loaded_models ++ [mn] } := by
        rw [hfb] at h
        exact (Option.some_inj.1 h).symm
      refine ⟨c0, h2.1, h2.2, h1.2, by rw [hw], by rw [hw], by rw [hw],
        by rw [hw], by rw [hw], by rw [hw],
        by rw [hw]; exact List.mem_append.2 (Or.inr (List.mem_singleton.2 rfl)),
        hrank, Or.inr ⟨by rw [hw], by rw [hfb, hw]⟩⟩

/-- After a successful selection the resulting map stores, under the id of
the returned copy, exactly that copy; the key list of the resulting map
stays duplicate-free; and the copy is a member of the resulting map. -/
theorem find_best_client_lookup {st : Registry} {mn : String} {now : Int}
    {w : GPUClient} (hnd : (st.map GPUClient.client_id).Nodup)
    (h : (find_best_client st mn now).1 = some w) :
    lookupClient (find_best_client st mn now).2 w.client_id = some w ∧
    (((find_best_client st mn now).2).map GPUClient.client_id).Nodup ∧
    w ∈ (find_best_client st mn now).2 := by
  obtain ⟨c0, hc0st, hact, _, hid, _, _, _, _, _, _, _, hcase⟩ :=
    find_best_client_spec h
  have hndr := keys_nodup_filter (isActiveForSelect now) hnd
  have hc0ret : c0 ∈ st.filter (isActiveForSelect now) :=
    List.mem_filter.2 ⟨hc0st, hact⟩
  rcases hcase with ⟨hw, hsnd⟩ | ⟨_, hsnd⟩
  · refine ⟨?_, by rw [hsnd]; exact hndr, ?_⟩
    · rw [hsnd, hw]
      exact lookupClient_eq_some_of_mem hndr hc0ret
    · rw [hsnd, hw]
      exact hc0ret
  · have hkeys : (((st.filter (isActiveForSelect now)).map
        (fun x => if x.client_id == c0.client_id then w else x)).map
          GPUClient.client_id) =
        (st.filter (isActiveForSelect now)).map GPUClient.client_id :=
      keys_mapIf c0.client_id (fun _ => w) (fun _ _ => hid)
        (st.filter (isActiveForSelect now))
    refine ⟨?_, by rw [hsnd, hkeys]; exact hndr, ?_⟩
    · rw [hsnd, hid]
      exact lookup_mapIf hndr hc0ret (fun _ => w) hid
    · rw [hsnd]
      exact List.mem_map.2 ⟨c0, hc0ret, by simp⟩

/-- Every record of the map a selection leaves behind passed the
30-second in-place eviction of registry.rs line 58. -/
theorem find_best_client_snd_active {st : Registry} {mn : String} {now : Int} :
    ∀ c ∈ (find_best_client st mn now).2, isActiveForSelect now c = true := by
  rcases hs : List.insertionSort Rank
      ((st.filter (isActiveForSelect now)).filter (eligibleClient mn))
    with _ | ⟨c0, t⟩
  · intro c hc
    rw [show (find_best_client st mn now).2 = st.filter (isActiveForSelect now) by
      simp only [find_best_client, hs, List.head?]] at hc
    exact (List.mem_filter.1 hc).2
  · have hc0 : c0 ∈ (st.filter (isActiveForSelect now)).filter
        (eligibleClient mn) :=
      (List.perm_insertionSort Rank _).subset
        (hs.symm ▸ List.mem_cons_self c0 t)
    have hc0act : isActiveForSelect now c0 = true :=
      (List.mem_filter.1 ((List.mem_filter.1 hc0).1)).2
    have hfb : find_best_client st mn now =
        (if c0.loaded_models.contains mn then
          (some c0, st.filter (isActiveForSelect now))
        else
          (some { c0 with loaded_models := c0.loaded_models ++ [mn] },
            (st.filter (isActiveForSelect now)).map
              (fun x => if x.client_id == c0.client_id then
                { c0 with loaded_models := c0.loaded_models ++ [mn] }
              else x))) := by
      simp only [find_best_client, hs, List.head?]
    by_cases hcont : c0.loaded_models.contains mn = true
    · rw [if_pos hcont] at hfb
      intro c hc
      rw [hfb] at hc
      exact (List.mem_filter.1 hc).2
    · rw [if_neg hcont] at hfb
      intro c hc
      rw [hfb] at hc
      rcases List.mem_map.1 hc with ⟨y, hy, hmap⟩
      by_cases hyid : (y.client_id == c0.client_id) = true
      · rw [if_pos hyid] at hmap
        rw [← hmap]
        unfold isActiveForSelect at hc0act ⊢
        exact hc0act
      · rw [if_neg hyid] at hmap
        rw [← hmap]
        exact (List.mem_filter.1 hy).2

/-! Claim fixtures. -/

/-- Fixture for the C1 witness: eligible worker with the model resident. -/
def cW1 : GPUClient :=
  clientMk 1 16384 1000 ["stable_diffusion"] 0 "online" ["stable_diffusion"]

/-- Fixture for the C1 counterexample: an online worker whose registered
GPU snapshot carries a negative total memory (the wire accepts any f64). -/
def cNegMem : GPUClient := clientMk 1 (-1) 0 [] 0 "online" []

/-- Fixture for C2: a worker whose last heartbeat is 10 seconds old at
observation time 10000 ms. -/
def cTen : GPUClient := clientMk 2 1 1 [] 0 "online" []

/-- Fixture for the C2 witness: a live worker with covid_xray resident. -/
def cLive : GPUClient := clientMk 2 1 1 ["covid_xray"] 0 "online" ["covid_xray"]

/-- Fixture for C4: a worker whose GPU reports 8191 MiB total memory (the
nvidia-smi probe of manager.rs lines 922-963 reports MiB), one MiB under
the 8192 MiB = 8 GiB minimum the spec prescribes for stable_diffusion. -/
def c8191 : GPUClient := clientMk 3 8191 100 [] 0 "online" ["stable_diffusion"]

/-!
C1. Selection soundness.
-/

/-- C1 counterexample: the claim requires every selected worker to have
strictly positive total GPU memory, but the filter of registry.rs line 76
only rejects total_memory equal to zero. A registered record with
total_memory -1 (accepted verbatim by POST /register) is selected for
covid_xray. -/
theorem C1_counterexample :
    (find_best_client [cNegMem] "covid_xray" 0).1 =
      some (clientMk 1 (-1) 0 ["covid_xray"] 0 "online" []) ∧
    ¬ (0 < (clientMk 1 (-1) 0 ["covid_xray"] 0 "online" []).gpu_info.total_memory) := by
  decide

/-- C1 (amended): if select returns some w, then w has status online,
nonzero (rather than strictly positive) total GPU memory, and the target
model resident or the memory check of the code passed, and no record of
the state that survives eviction and passes the filter ranks strictly
better than w by (greater total memory, then greater free memory). -/
theorem select_sound {st : Registry} {mn : String} {now : Int}
    {w : GPUClient} (h : (find_best_client st mn now).1 = some w) :
    w.status = "online" ∧
    w.gpu_info.total_memory ≠ 0 ∧
    (mn ∈ w.loaded_models ∨ hasEnoughMemory mn w = true) ∧
    ∀ c ∈ st, isActiveForSelect now c = true → eligibleClient mn c = true →
      ¬ StrictlyBetter c w := by
  obtain ⟨c0, _, _, helig, _, hgpu, hstat, _, _, _, hmem, hrank, _⟩ :=
    find_best_client_spec h
  have he : c0.status = "online" ∧ c0.gpu_info.total_memory ≠ 0 := by
    have h' := helig
    unfold eligibleClient at h'
    simp only [Bool.and_eq_true, beq_iff_eq, Bool.not_eq_true',
      beq_eq_false_iff_ne] at h'
    exact ⟨h'.1.1, h'.1.2⟩
  refine ⟨by rw [hstat]; exact he.1, by rw [hgpu]; exact he.2,
    Or.inl hmem, ?_⟩
  intro c hcst hca hce
  exact not_strictlyBetter_of_rank hgpu (hrank c hcst hca hce)

/-- Witness for select_sound at a concrete registry. -/
theorem select_sound_witness :
    cW1.status = "online" ∧ cW1.gpu_info.total_memory ≠ 0 ∧
    ¬ StrictlyBetter cW1 cW1 := by
  have h := @select_sound [cW1] "stable_diffusion" 0 cW1 (by decide)
  exact ⟨h.1, h.2.1, h.2.2.2 cW1 (by decide) (by decide) (by decide)⟩

/-!
C2. Liveness windows.
-/

/-- C2 counterexample: the claim says list_active returns exactly the
records younger than 30 seconds, but get_active_clients uses the
3-second heartbeat_timeout of the constructor; a record aged 10 seconds
is dropped. -/
theorem C2_counterexample :
    get_active_clients [cTen] 10000 = [] ∧
    10000 - cTen.last_heartbeat < 30000 := by
  decide

/-- C2 (amended): the three liveness checks of the registry.
get_active_clients and cleanup_inactive_clients retain a record exactly
when the whole-second truncation of its age is below the 3-second
heartbeat_timeout (so at exactly the window the record is dropped, and
strictly under it it is retained); the in-place eviction of
find_best_client retains only records aged strictly under 30 seconds. -/
theorem liveness_windows (st : Registry) (now : Int) (mn : String)
    (c : GPUClient) :
    (c ∈ get_active_clients st now ↔
      c ∈ st ∧ Int.tdiv (now - c.last_heartbeat) 1000 < 3) ∧
    (c ∈ cleanup_inactive_clients st now ↔
      c ∈ st ∧ Int.tdiv (now - c.last_heartbeat) 1000 < 3) ∧
    (c ∈ (find_best_client st mn now).2 → now - c.last_heartbeat < 30000) := by
  refine ⟨?_, ?_, ?_⟩
  · unfold get_active_clients isActiveForList wholeSeconds heartbeatTimeoutSecs
    rw [List.mem_filter]
    simp
  · unfold cleanup_inactive_clients isActiveForList wholeSeconds heartbeatTimeoutSecs
    rw [List.mem_filter]
    simp
  · intro hc
    have h := find_best_client_snd_active c hc
    unfold isActiveForSelect livenessWindowMillis at h
    simpa using h

/-- Witness for liveness_windows at concrete records and times. -/
theorem liveness_windows_witness :
    cLive ∈ get_active_clients [cLive] 2000 ∧
    cLive ∈ cleanup_inactive_clients [cLive] 2000 ∧
    29999 - cLive.last_heartbeat < 30000 := by
  refine ⟨?_, ?_, ?_⟩
  · exact (liveness_windows [cLive] 2000 "covid_xray" cLive).1.mpr
      ⟨List.mem_singleton.2 rfl, by decide⟩
  · exact (liveness_windows [cLive] 2000 "covid_xray" cLive).2.1.mpr
      ⟨List.mem_singleton.2 rfl, by decide⟩
  · exact (liveness_windows [cLive] 29999 "covid_xray" cLive).2.2 (by decide)

/-!
C4. The stable_diffusion memory threshold.
-/

/-- C4: the code contradicts its stated intent. The probe of
manager.rs get_gpu_memory_info parses nvidia-smi MiB values into
total_memory, and the filter of registry.rs line 89 compares that value
against 8.0 while its comment says stable_diffusion needs 8 GB+ VRAM and
its log prints the value as GB. A worker totalling 8191 MiB, which the
claim and spec call ineligible, passes the filter and is selected. -/
theorem sd_vram_threshold_bug :
    eligibleClient "stable_diffusion" c8191 = true ∧
    (find_best_client [c8191] "stable_diffusion" 0).1 =
      some (clientMk 3 8191 100 ["stable_diffusion"] 0 "online"
        ["stable_diffusion"]) := by
  decide

/-!
C3. Speculative load.
-/

/-- Fixture for C3: an eligible worker that supports stable_diffusion but
does not have it resident yet. -/
def cSpec : GPUClient := clientMk 4 16384 100 [] 0 "online" ["stable_diffusion"]

/-- The record C3 selection produces from cSpec: stable_diffusion has
been appended to loaded_models. -/
def cSpecSel : GPUClient :=
  clientMk 4 16384 100 ["stable_diffusion"] 0 "online" ["stable_diffusion"]

/-- C3 (confirmed): when select returns some w, the resulting registry map
stores under w.client_id a record equal to the returned copy w, and the
target model is in its loaded_models. -/
theorem select_speculative_load {st : Registry} {mn : String} {now : Int}
    {w : GPUClient} (hnd : (st.map GPUClient.client_id).Nodup)
    (h : (find_best_client st mn now).1 = some w) :
    lookupClient (find_best_client st mn now).2 w.client_id = some w ∧
    mn ∈ w.loaded_models := by
  obtain ⟨c0, _, _, _, _, _, _, _, _, _, hmem, _, _⟩ := find_best_client_spec h
  exact ⟨(find_best_client_lookup hnd h).1, hmem⟩

/-- Witness for select_speculative_load at a concrete registry. -/
theorem select_speculative_load_witness :
    lookupClient (find_best_client [cSpec] "stable_diffusion" 0).2
      cSpecSel.client_id = some cSpecSel ∧
    "stable_diffusion" ∈ cSpecSel.loaded_models :=
  @select_speculative_load [cSpec] "stable_diffusion" 0 cSpecSel
    (by decide) (by decide)

/-!
C5. Forward failure marks the worker error.
-/

/-- Fixture for C5: a live worker with covid_xray resident. -/
def cPred : GPUClient := clientMk 5 1 1 ["covid_xray"] 0 "online" ["covid_xray"]

/-- Fixture request for C5: a valid covid_xray prediction. -/
def reqCov : PredictionRequest :=
  { model_type := .CovidXRay, model_cid := "cid-a",
    image_url := some "img-url", prompt := none, quality_preset := none }

/-- Fixture upstream outcome for C5: the forwarded POST fails at the
transport level. -/
def upstreamRefused : GPUClient → Except ClientError PredictionResponse :=
  fun _ => .error (.RequestFailed "connection refused")

/-- C5 counterexample: the claim requires every field but status to be
preserved, but the synthesized heartbeat of mod.rs line 218 carries
last_heartbeat = Utc::now(), so the stored last_heartbeat changes from 0
to the failure time 5000. -/
theorem C5_counterexample :
    (predict [cPred] 5000 reqCov upstreamRefused).2 =
      [{ cPred with status := "error", last_heartbeat := 5000 }] ∧
    ({ cPred with status := "error", last_heartbeat := 5000 } :
      GPUClient).last_heartbeat ≠ cPred.last_heartbeat ∧
    (predict [cPred] 5000 reqCov upstreamRefused).1 =
      .serverError "Request failed: connection refused" := by
  decide

/-- C5 (amended): when the forwarded request on the selected worker w
fails, the coordinator returns 500 with the Display string of the
upstream error, the stored record under w.client_id becomes w with
status error and last_heartbeat refreshed to the failure time, the
remaining fields of the record unchanged, and every other record of the
post-selection map is untouched. -/
theorem predict_failure_marks_error {st : Registry} {now : Int}
    {req : PredictionRequest}
    {f : GPUClient → Except ClientError PredictionResponse}
    {w : GPUClient} {e : ClientError}
    (hnd : (st.map GPUClient.client_id).Nodup)
    (hv : validateRequest req = none)
    (hs : (find_best_client st (modelName req.model_type) now).1 = some w)
    (hf : f w = .error e) :
    (predict st now req f).1 = .serverError e.display ∧
    lookupClient (predict st now req f).2 w.client_id =
      some { w with status := "error", last_heartbeat := now } ∧
    ∀ c ∈ (find_best_client st (modelName req.model_type) now).2,
      c.client_id ≠ w.client_id → c ∈ (predict st now req f).2 := by
  obtain ⟨_, hndr, hwmem⟩ := find_best_client_lookup hnd hs
  have hany : ((find_best_client st (modelName req.model_type) now).2).any
      (fun x => x.client_id == (errorHeartbeat w now).client_id) = true :=
    List.any_eq_true.2 ⟨w, hwmem, by simp [errorHeartbeat]⟩
  have hupd : update_client (find_best_client st (modelName req.model_type) now).2
      (errorHeartbeat w now) =
      .ok (((find_best_client st (modelName req.model_type) now).2).map
        (fun x => if x.client_id == (errorHeartbeat w now).client_id then
          applyHeartbeat x (errorHeartbeat w now) else x)) := by
    unfold update_client
    rw [if_pos hany]
  have hpred : predict st now req f =
      (.serverError e.display,
        ((find_best_client st (modelName req.model_type) now).2).map
          (fun x => if x.client_id == (errorHeartbeat w now).client_id then
            applyHeartbeat x (errorHeartbeat w now) else x)) := by
    unfold predict
    rw [hv]
    simp only [hs, hf, hupd]
  refine ⟨by rw [hpred], ?_, ?_⟩
  · rw [hpred]
    have hidr : (errorHeartbeat w now).client_id = w.client_id := rfl
    rw [hidr]
    have happ : applyHeartbeat w (errorHeartbeat w now) =
        { w with status := "error", last_heartbeat := now } := rfl
    rw [← happ]
    exact lookup_mapIf hndr hwmem
      (fun x => applyHeartbeat x (errorHeartbeat w now)) rfl
  · intro c hc hne
    rw [hpred]
    exact mem_mapIf_of_ne hc (errorHeartbeat w now).client_id
      (fun x => applyHeartbeat x (errorHeartbeat w now)) hne

/-- Witness for predict_failure_marks_error at a concrete registry. -/
theorem predict_failure_marks_error_witness :
    (predict [cPred] 5000 reqCov upstreamRefused).1 =
      .serverError (ClientError.RequestFailed "connection refused").display ∧
    lookupClient (predict [cPred] 5000 reqCov upstreamRefused).2
      cPred.client_id =
      some { cPred with status := "error", last_heartbeat := 5000 } := by
  have h := @predict_failure_marks_error [cPred] 5000 reqCov
    upstreamRefused cPred (ClientError.RequestFailed "connection refused")
    (by decide) (by decide) (by decide) rfl
  exact ⟨h.1, h.2.1⟩

/-!
C6. Heartbeat for an unknown id.
-/

/-- Fixture heartbeat whose id 99 is registered nowhere. -/
def uOrphan : HeartbeatUpdate :=
  { client_id := 99, loaded_models := [], status := "online",
    last_heartbeat := 0, ip_address := none,
    capabilities := { models := [], gpu_available := true },
    gpu_info := gpuMk 1 1 }

/-- C6 counterexample: the wired handler answers 200 with body status
error, but its message is the format string of mod.rs line 95 around the
thiserror text, not the bare text the claim states. -/
theorem C6_counterexample :
    heartbeatEndpoint [] 7 uOrphan =
      ((200, ⟨"error", "Failed to update client: client not found"⟩), []) ∧
    "Failed to update client: client not found" ≠ "client not found" := by
  decide

/-- C6 (amended): a heartbeat whose id is not a key of the map leaves the
map unchanged, update_client returns ClientNotFound, and the endpoint
answers HTTP 200 with body status error and message
Failed to update client: client not found. -/
theorem heartbeat_unknown_id {st : Registry} {u : HeartbeatUpdate}
    (pathId : Nat) (h : ∀ c ∈ st, c.client_id ≠ u.client_id) :
    update_client st u = .error .ClientNotFound ∧
    heartbeatEndpoint st pathId u =
      ((200, ⟨"error", "Failed to update client: client not found"⟩), st) := by
  have hany : st.any (fun x => x.client_id == u.client_id) = false := by
    rw [List.any_eq_false]
    intro x hx
    simp [h x hx]
  have hupd : update_client st u = .error .ClientNotFound := by
    unfold update_client
    rw [hany]
    simp
  refine ⟨hupd, ?_⟩
  unfold heartbeatEndpoint
  rw [hupd]
  rfl

/-- Witness for heartbeat_unknown_id at a concrete registry. -/
theorem heartbeat_unknown_id_witness :
    update_client [cLive] uOrphan = .error .ClientNotFound ∧
    heartbeatEndpoint [cLive] 2 uOrphan =
      ((200, ⟨"error", "Failed to update client: client not found"⟩),
        [cLive]) :=
  heartbeat_unknown_id 2 (by decide)

/-!
C7. The loaded-models-supported invariant.
-/

/-- Fixture for C7: an online worker that supports no model at all. -/
def cUnsup : GPUClient := clientMk 6 1 1 [] 0 "online" []

/-- Fixture heartbeat for the C7 witness, with loaded models contained in
the declared capabilities. -/
def uLive : HeartbeatUpdate :=
  { client_id := 2, loaded_models := ["covid_xray"], status := "online",
    last_heartbeat := 1000, ip_address := none,
    capabilities := { models := ["covid_xray"], gpu_available := true },
    gpu_info := gpuMk 1 1 }

/-- C7 counterexample: the filter of find_best_client never consults
capabilities, so selection appends covid_xray to a worker that supports
no model, breaking the subset invariant in a state that satisfied it. -/
theorem C7_counterexample :
    cUnsup.loaded_models = [] ∧
    (find_best_client [cUnsup] "covid_xray" 0).2 =
      [clientMk 6 1 1 ["covid_xray"] 0 "online" []] ∧
    "covid_xray" ∈ (clientMk 6 1 1 ["covid_xray"] 0 "online" []).loaded_models ∧
    "covid_xray" ∉ (clientMk 6 1 1 ["covid_xray"] 0 "online" []).capabilities.models := by
  decide

/-- C7 (amended): register and update preserve the subset invariant when
their inputs satisfy it; select preserves it only under the extra premiss
that the chosen worker supports the target model - without it the
speculative append can break the invariant, since the filter never
consults capabilities. -/
theorem loaded_subset_preservation :
    (∀ st c, (∀ y ∈ st, InvSub y) → InvSub c →
      ∀ x ∈ register_client st c, InvSub x) ∧
    (∀ st u st', (∀ y ∈ st, InvSub y) →
      (∀ m ∈ u.loaded_models, m ∈ u.capabilities.models) →
      update_client st u = .ok st' → ∀ x ∈ st', InvSub x) ∧
    (∀ st mn now w, (∀ y ∈ st, InvSub y) →
      (find_best_client st mn now).1 = some w →
      mn ∈ w.capabilities.models →
      ∀ x ∈ (find_best_client st mn now).2, InvSub x) := by
  refine ⟨?_, ?_, ?_⟩
  · intro st c hst hc x hx
    unfold register_client at hx
    by_cases hany : st.any (fun y => y.client_id == c.client_id) = true
    · rw [if_pos hany] at hx
      rcases List.mem_map.1 hx with ⟨y, hy, hmap⟩
      by_cases hid : (y.client_id == c.client_id) = true
      · rw [if_pos hid] at hmap
        rw [← hmap]
        exact hc
      · rw [if_neg hid] at hmap
        rw [← hmap]
        exact hst y hy
    · rw [if_neg hany] at hx
      rcases List.mem_append.1 hx with hx | hx
      · exact hst x hx
      · rw [List.mem_singleton.1 hx]
        exact hc
  · intro st u st' hst hu hupd x hx
    unfold update_client at hupd
    by_cases hany : st.any (fun y => y.client_id == u.client_id) = true
    · rw [if_pos hany] at hupd
      injection hupd with hst'
      rw [← hst'] at hx
      rcases List.mem_map.1 hx with ⟨y, hy, hmap⟩
      by_cases hid : (y.client_id == u.client_id) = true
      · rw [if_pos hid] at hmap
        rw [← hmap]
        unfold InvSub applyHeartbeat
        intro m hm
        exact hu m hm
      · rw [if_neg hid] at hmap
        rw [← hmap]
        exact hst y hy
    · rw [if_neg hany] at hupd
      cases hupd
  · intro st mn now w hst hsel hw x hx
    obtain ⟨c0, hc0st, _, _, _, _, _, hcaps, _, _, _, _, hcase⟩ :=
      find_best_client_spec hsel
    rcases hcase with ⟨_, hsnd⟩ | ⟨hlm, hsnd⟩
    · rw [hsnd] at hx
      exact hst x (List.mem_filter.1 hx).1
    · rw [hsnd] at hx
      rcases List.mem_map.1 hx with ⟨y, hy, hmap⟩
      by_cases hid : (y.client_id == c0.client_id) = true
      · rw [if_pos hid] at hmap
        rw [← hmap]
        unfold InvSub
        intro m hm
        rw [hlm] at hm
        rcases List.mem_append.1 hm with hm | hm
        · rw [hcaps]
          exact hst c0 hc0st m hm
        · rw [List.mem_singleton.1 hm]
          exact hw
      · rw [if_neg hid] at hmap
        rw [← hmap]
        exact hst y (List.mem_filter.1 hy).1

/-- Witness for loaded_subset_preservation: one concrete instance of each
of the three conjuncts, evaluated at one loaded model each. -/
theorem loaded_subset_preservation_witness :
    "stable_diffusion" ∈ cW1.capabilities.models ∧
    "covid_xray" ∈ (applyHeartbeat cLive uLive).capabilities.models ∧
    "stable_diffusion" ∈ cSpecSel.capabilities.models := by
  refine ⟨?_, ?_, ?_⟩
  · exact loaded_subset_preservation.1 [] cW1 (by simp) (by decide)
      cW1 (by decide) "stable_diffusion" (by decide)
  · exact loaded_subset_preservation.2.1 [cLive] uLive
      [applyHeartbeat cLive uLive] (by decide) (by decide) (by decide)
      (applyHeartbeat cLive uLive) (by decide) "covid_xray" (by decide)
  · exact loaded_subset_preservation.2.2 [cSpec] "stable_diffusion" 0
      cSpecSel (by decide) (by decide) (by decide) cSpecSel (by decide)
      "stable_diffusion" (by decide)

/-!
C8. Recovery after a client-not-found heartbeat reply.
-/

/-- C8 counterexample: the coordinator reports the unknown id inside an
HTTP 200 reply, send_heartbeat treats every 2xx reply as success without
reading the body, and the loop body of start never calls register; after
receiving the client-not-found reply the agent emits its next heartbeat
with the registration count still at the single initial registration. -/
theorem C8_counterexample :
    heartbeatEndpoint [] 1 uOrphan =
      ((200, ⟨"error", "Failed to update client: client not found"⟩), []) ∧
    hbSendOutcome 200 "Failed to update client: client not found" =
      .ok () ∧
    (agentHeartbeatTick (agentStart ⟨0, 0⟩) 200
      "Failed to update client: client not found").registrations = 1 ∧
    (agentHeartbeatTick (agentStart ⟨0, 0⟩) 200
      "Failed to update client: client not found").heartbeats = 1 ∧
    (agentHeartbeatTick
      (agentHeartbeatTick (agentStart ⟨0, 0⟩) 200
        "Failed to update client: client not found") 200
      "Failed to update client: client not found").registrations = 1 := by
  decide

/-- C8 (amended): the agent registers only inside start; a heartbeat
iteration never changes the registration count whatever reply it gets,
and the client-not-found reply in particular arrives with HTTP status
200, which send_heartbeat classifies as success without inspecting the
body. -/
theorem agent_never_reregisters (s : AgentState) (respStatus : Nat)
    (respBody : String) :
    (agentHeartbeatTick s respStatus respBody).registrations =
      s.registrations ∧
    (agentHeartbeatTick s respStatus respBody).heartbeats =
      s.heartbeats + 1 ∧
    hbSendOutcome 200 "Failed to update client: client not found" =
      .ok () := by
  unfold agentHeartbeatTick
  rcases h : hbSendOutcome respStatus respBody with _ | _ <;>
    exact ⟨rfl, rfl, rfl⟩

/-!
C9. Heartbeat lock timeouts.
-/

/-- Fixture GPU snapshot for C9. -/
def gpuBusyHost : GPUInfo := gpuMk 16384 1000

/-- C9 counterexample: with both lock acquisitions timed out while the
actual worker state is status busy with stable_diffusion resident (the
very case in which the handler holds the locks), the heartbeat payload
carries the initialized defaults online and empty loaded_models of
manager.rs lines 262-265, not the last-known values. -/
theorem C9_counterexample :
    (mkHeartbeatUpdate 1 "127.0.0.1:8002" 0 gpuBusyHost none none).status =
      "online" ∧
    (mkHeartbeatUpdate 1 "127.0.0.1:8002" 0 gpuBusyHost none none).loaded_models =
      [] ∧
    (mkHeartbeatUpdate 1 "127.0.0.1:8002" 0 gpuBusyHost
      (some ["stable_diffusion"]) (some "busy")).status = "busy" ∧
    (mkHeartbeatUpdate 1 "127.0.0.1:8002" 0 gpuBusyHost none none).status ≠
      "busy" ∧
    (mkHeartbeatUpdate 1 "127.0.0.1:8002" 0 gpuBusyHost none none).loaded_models ≠
      ["stable_diffusion"] := by
  decide

/-- C9 (amended): both lock acquisitions are bounded by the 100 ms
timeout constant, and the heartbeat is still built and sent on timeout,
but it carries the defaults (empty loaded_models, status online) rather
than the last-known values; when the locks are obtained it carries the
locked values. -/
theorem heartbeat_lock_timeout (cid : Nat) (ip : String) (now : Int)
    (g : GPUInfo) (lm : List String) (s : String) :
    heartbeatLockTimeoutMillis = 100 ∧
    (mkHeartbeatUpdate cid ip now g none none).loaded_models = [] ∧
    (mkHeartbeatUpdate cid ip now g none none).status = "online" ∧
    (mkHeartbeatUpdate cid ip now g (some lm) (some s)).loaded_models = lm ∧
    (mkHeartbeatUpdate cid ip now g (some lm) (some s)).status = s := by
  exact ⟨rfl, rfl, rfl, rfl, rfl⟩

/-!
C10. The heartbeat path segment is ignored.
-/

/-- Fixture records for C10: two registered workers with ids 1 and 2. -/
def recA : GPUClient := clientMk 1 1 1 [] 0 "online" []

/-- Second fixture record for C10. -/
def recB : GPUClient := clientMk 2 1 1 [] 0 "online" []

/-- Fixture heartbeat for C10: the body names id 2 while the request path
names id 1. -/
def uB : HeartbeatUpdate :=
  { client_id := 2, loaded_models := [], status := "busy",
    last_heartbeat := 500, ip_address := none,
    capabilities := { models := [], gpu_available := true },
    gpu_info := gpuMk 1 1 }

/-- C10 (confirmed): the wired handler never reads the path segment, so
two requests differing only in the path act identically; concretely, a
request to the path of id 1 whose body names id 2 updates the record of
id 2 and leaves the record of id 1 unchanged, and when the body id is
unknown the reply is the not-found body even though the path id exists. -/
theorem heartbeat_path_ignored :
    (∀ (st : Registry) (pathA pathB : Nat) (u : HeartbeatUpdate),
      heartbeatEndpoint st pathA u = heartbeatEndpoint st pathB u) ∧
    heartbeatEndpoint [recA, recB] 1 uB =
      ((200, ⟨"success", "Client updated successfully"⟩),
        [recA, applyHeartbeat recB uB]) ∧
    heartbeatEndpoint [recA] 1 uB =
      ((200, ⟨"error", "Failed to update client: client not found"⟩),
        [recA]) := by
  refine ⟨fun st pathA pathB u => rfl, by decide, by decide⟩

end Cactus
